import Mathlib

/-!
Shallow embedding of `scripts/8kHz_polling.py` from Open-Source-LDAT.

The script patches a vendor header for the duration of a build:
* a crash-recovery prologue (lines 41-44): if the backup file exists,
  copy it over the original and delete it (`ensureClean`);
* the backup-and-patch block (lines 47-76): copy the original to the
  backup (abort on failure), read the original, replace every occurrence
  of the match line by the replacement line and write back, and on a
  read/write failure restore the backup and delete it before exiting
  (`apply`);
* the post-build hook `restore_backup` (lines 80-87): if the backup
  exists, copy it over the original and delete it, otherwise warn.

The filesystem is modelled as the contents of the two paths the script
touches: `usb_desc.h` (`orig`) and `usb_desc.h.bak` (`backup`), each an
optional list of characters (`none` = the file does not exist).
I/O failures of the three fallible operations inside `apply` are
injected through a `Faults` record; `exit(1)` is modelled as an error
value carried next to the resulting filesystem state.
-/

namespace LDAT

/-- Python `str.replace` for a nonempty pattern: scan left to right,
replacing each leftmost non-overlapping occurrence of `m` by `r`.
The `fuel` argument makes the recursion structural; `pyReplace` supplies
`c.length`, which is enough fuel because every step consumes at least
one character of the remaining content. -/
def replaceGo (m r : List Char) : Nat → List Char → List Char
  | _, [] => []
  | 0, c => c
  | fuel + 1, x :: xs =>
    if (x :: xs).take m.length = m then
      r ++ replaceGo m r fuel ((x :: xs).drop m.length)
    else
      x :: replaceGo m r fuel xs

/-- Python `content.replace(m, r)`: for the empty pattern Python inserts
`r` before every character and at the end. -/
def pyReplace (m r c : List Char) : List Char :=
  if m = [] then r ++ (c.map (fun x => x :: r)).flatten
  else replaceGo m r c.length c

/-- Python substring test `m in c`. -/
def containsSub (m : List Char) : List Char → Bool
  | [] => m.isEmpty
  | x :: xs => (x :: xs).take m.length == m || containsSub m xs

/-- The two files the script touches: `usb_desc.h` (`orig`) and
`usb_desc.h.bak` (`backup`); `none` means the file does not exist. -/
structure FS where
  orig : Option (List Char)
  backup : Option (List Char)
deriving DecidableEq, Repr

/-- A literal substitution rule: the script's
`original_mouse_interval` / `modified_mouse_interval` pair. -/
structure Rule where
  matchText : List Char
  replacementText : List Char
deriving DecidableEq, Repr

/-- Injected I/O failures for the three fallible operations inside the
backup-and-patch block: the `shutil.copy` creating the backup, the read
of the original, and the write of the patched content. -/
structure Faults where
  backupFails : Bool
  readFails : Bool
  writeFails : Bool
deriving DecidableEq, Repr

/-- A run in which every I/O operation succeeds. -/
def noFaults : Faults := ⟨false, false, false⟩

/-- The two `exit(1)` sites of the script: the backup copy failed
(lines 50-52) or the read/write of the original failed (lines 71-76). -/
inductive PatchError
  | backupFailed
  | patchFailed
deriving DecidableEq, Repr

/-- Outcome of the backup-and-patch block: the optional error that made
the script `exit(1)`, and the filesystem state it left behind. -/
structure ApplyResult where
  err : Option PatchError
  fs : FS
deriving DecidableEq, Repr

/-- Lines 41-44: if the backup exists, copy it over the original and
delete it, printing a diagnostic; otherwise do nothing. -/
def ensureClean (s : FS) : FS × List String :=
  match s.backup with
  | some b =>
      (⟨some b, none⟩,
       ["PlatformIO: Found old backup. Restoring original file before patching."])
  | none => (s, [])

/-- Lines 47-76: copy the original to the backup (on failure, or when the
original is missing, exit with `backupFailed` and touch nothing); read the
original (on failure, copy the backup over the original, delete the
backup, and exit with `patchFailed`); if the match text occurs in the
content, replace every occurrence and write the result back (a write
failure compensates the same way); otherwise skip the write. -/
def apply (rule : Rule) (f : Faults) (s : FS) : ApplyResult :=
  match s.orig with
  | none => ⟨some .backupFailed, s⟩
  | some c =>
    if f.backupFails then ⟨some .backupFailed, s⟩
    else if f.readFails then ⟨some .patchFailed, ⟨some c, none⟩⟩
    else if containsSub rule.matchText c then
      if f.writeFails then ⟨some .patchFailed, ⟨some c, none⟩⟩
      else ⟨none, ⟨some (pyReplace rule.matchText rule.replacementText c), some c⟩⟩
    else ⟨none, ⟨some c, some c⟩⟩

/-- Lines 80-87, the post-build hook: if the backup exists, copy it over
the original and delete it; otherwise print a warning and change nothing. -/
def restore_backup (s : FS) : FS × List String :=
  match s.backup with
  | some b =>
      (⟨some b, none⟩,
       ["PlatformIO: Build finished. Restoring original usb_desc.h from backup...",
        "PlatformIO: Original file restored."])
  | none =>
      (s,
       ["PlatformIO: Build finished. Restoring original usb_desc.h from backup...",
        "PlatformIO: Warning: Backup file not found, cannot restore."])

/-- Line 60 of the script: the exact line searched for. -/
def original_mouse_interval : List Char :=
  "#define MOUSE_INTERVAL        2".toList

/-- Line 61 of the script: the replacement line (1 = 8kHz). -/
def modified_mouse_interval : List Char :=
  "#define MOUSE_INTERVAL        1".toList

/-- The concrete rule the script applies. -/
def mouseRule : Rule := ⟨original_mouse_interval, modified_mouse_interval⟩

/-- A sample `usb_desc.h` content containing the unpatched line. -/
def sampleHeader : List Char :=
  "// usb_desc.h\n#define MOUSE_INTERVAL        2\n".toList

/-- The invariant of the spec's data model: whenever the backup file
exists, its content is the pristine content `P`. -/
def backupPristine (P : List Char) (s : FS) : Prop :=
  ∀ b, s.backup = some b → b = P

/-- Helper: a fault-free `apply` on a state whose original file exists but
does not contain the match text leaves the original file's content as it
was (the no-op branch). -/
theorem apply_orig_of_not_contains (rule : Rule) (s : FS) (C : List Char)
    (hs : s.orig = some C) (h : containsSub rule.matchText C = false) :
    (apply rule noFaults s).fs.orig = some C := by
  obtain ⟨o, b⟩ := s
  simp only at hs
  subst hs
  simp [apply, noFaults, h]

/-- Claim C1: for every file content `C` and rule `(m, r)` such that `C`
contains `m` as a substring, starting from a state with no backup file,
running `apply` followed by `restore` leaves the original file's content
byte-for-byte equal to `C` and leaves the backup file non-existent. -/
theorem c1_apply_restore_round_trip (C m r : List Char)
    (h : containsSub m C = true) :
    (restore_backup (apply ⟨m, r⟩ noFaults ⟨some C, none⟩).fs).1
      = ⟨some C, none⟩ := by
  simp [apply, noFaults, h, restore_backup]

/-- Witness for C1 at `C = "ab"`, `m = "a"`, `r = "x"`. -/
theorem c1_witness :
    containsSub "a".toList "ab".toList = true ∧
    (restore_backup
        (apply ⟨"a".toList, "x".toList⟩ noFaults ⟨some "ab".toList, none⟩).fs).1
      = ⟨some "ab".toList, none⟩ :=
  ⟨by decide, c1_apply_restore_round_trip "ab".toList "a".toList "x".toList (by decide)⟩

/-- Counterexample to claim C2 as stated: starting from pristine content
`"ab"` with no backup and the rule `("a", "x")`, after `apply` followed by
a second `apply` (no intervening `restore`) the backup file exists and
holds the patched content `"xb"`, not the pristine content `"ab"`: the
second `apply` copies the already-patched original over the backup. -/
theorem c2_counterexample :
    ((apply ⟨"a".toList, "x".toList⟩ noFaults
        (apply ⟨"a".toList, "x".toList⟩ noFaults ⟨some "ab".toList, none⟩).fs).fs.backup
      = some "xb".toList)
    ∧ ¬ backupPristine "ab".toList
        (apply ⟨"a".toList, "x".toList⟩ noFaults
          (apply ⟨"a".toList, "x".toList⟩ noFaults ⟨some "ab".toList, none⟩).fs).fs := by
  refine ⟨by decide, fun hinv => ?_⟩
  have hxb := hinv "xb".toList (by decide)
  exact absurd hxb (by decide)

/-- Claim C2 (amended): whenever the backup file exists, its content
equals the pristine content; this invariant is preserved by `ensureClean`
and `restore`, and is established by `apply` when `apply` is run from a
state satisfying its precondition (original file pristine, no backup
present) — but it is not preserved by a second `apply` performed without
an intervening `restore`, which overwrites the backup with the current
(patched) content. -/
theorem c2_amended (P : List Char) (rule : Rule) (f : Faults) (s : FS) :
    (backupPristine P s → backupPristine P (ensureClean s).1)
    ∧ (backupPristine P s → backupPristine P (restore_backup s).1)
    ∧ (s = ⟨some P, none⟩ → backupPristine P (apply rule f s).fs) := by
  obtain ⟨o, b⟩ := s
  refine ⟨?_, ?_, ?_⟩
  · intro _ b' hb'
    cases b <;> simp [ensureClean] at hb'
  · intro hinv b' hb'
    cases b <;> simp [restore_backup] at hb'
  · rintro h b' hb'
    cases h
    obtain ⟨bf, rf, wf⟩ := f
    by_cases hc : containsSub rule.matchText P = true <;>
      cases bf <;> cases rf <;> cases wf <;>
        simp_all [apply]

/-- Witness for the amended C2: `apply` from the pristine state with
content `"ab"` and rule `("a", "x")` establishes the invariant. -/
theorem c2_amended_witness :
    backupPristine "ab".toList
      (apply ⟨"a".toList, "x".toList⟩ noFaults ⟨some "ab".toList, none⟩).fs :=
  (c2_amended "ab".toList ⟨"a".toList, "x".toList⟩ noFaults
    ⟨some "ab".toList, none⟩).2.2 rfl

/-- Claim C3: for every file content that does not contain the rule's
match text, a fault-free `apply` leaves the original file's content
unchanged (the no-op branch, not an error) but still creates the backup
file with a copy of that content. -/
theorem c3_noop_still_backs_up (rule : Rule) (C : List Char)
    (b0 : Option (List Char))
    (h : containsSub rule.matchText C = false) :
    apply rule noFaults ⟨some C, b0⟩ = ⟨none, ⟨some C, some C⟩⟩ := by
  simp [apply, noFaults, h]

/-- Witness for C3 at `C = "bc"` with rule `("a", "x")`. -/
theorem c3_witness :
    containsSub "a".toList "bc".toList = false ∧
    apply ⟨"a".toList, "x".toList⟩ noFaults ⟨some "bc".toList, none⟩
      = ⟨none, ⟨some "bc".toList, some "bc".toList⟩⟩ :=
  ⟨by decide, c3_noop_still_backs_up ⟨"a".toList, "x".toList⟩ "bc".toList none (by decide)⟩

/-- Claim C4: whenever `apply` fails with `patchFailed` (the read or
write of the original file failed after the backup was created), the
compensating restore has run: the original file holds the pristine
content it had before `apply`, and no backup file remains. -/
theorem c4_compensating_restore (rule : Rule) (f : Faults) (s : FS)
    (C : List Char) (hC : s.orig = some C)
    (herr : (apply rule f s).err = some PatchError.patchFailed) :
    (apply rule f s).fs = ⟨some C, none⟩ := by
  obtain ⟨o, b⟩ := s
  simp only at hC
  subst hC
  obtain ⟨bf, rf, wf⟩ := f
  by_cases hc : containsSub rule.matchText C = true <;>
    cases bf <;> cases rf <;> cases wf <;>
      simp_all [apply]

/-- Witness for C4: a read failure on `C = "ab"`. -/
theorem c4_witness :
    (apply ⟨"a".toList, "x".toList⟩ ⟨false, true, false⟩
        ⟨some "ab".toList, none⟩).fs
      = ⟨some "ab".toList, none⟩ :=
  c4_compensating_restore ⟨"a".toList, "x".toList⟩ ⟨false, true, false⟩
    ⟨some "ab".toList, none⟩ "ab".toList rfl (by decide)

/-- Claim C5: `restore` never fails; when the backup file is absent it
changes nothing on the filesystem and emits the warning diagnostic, and
`restore` is idempotent: a second call in a row is a filesystem no-op. -/
theorem c5_restore_safe_idempotent (s : FS) :
    (s.backup = none →
      (restore_backup s).1 = s ∧
      "PlatformIO: Warning: Backup file not found, cannot restore."
        ∈ (restore_backup s).2)
    ∧ (restore_backup (restore_backup s).1).1 = (restore_backup s).1 := by
  obtain ⟨o, b⟩ := s
  cases b <;> simp [restore_backup]

/-- Witness for C5 at the state with original `"ab"` and no backup. -/
theorem c5_witness :
    (restore_backup ⟨some "ab".toList, none⟩).1 = ⟨some "ab".toList, none⟩ ∧
    "PlatformIO: Warning: Backup file not found, cannot restore."
      ∈ (restore_backup ⟨some "ab".toList, none⟩).2 :=
  (c5_restore_safe_idempotent ⟨some "ab".toList, none⟩).1 rfl

/-- Claim C6: after `ensureClean` the backup file does not exist; if the
backup existed, the original file now holds the content the backup held;
if the backup did not exist, `ensureClean` changes nothing. -/
theorem c6_ensure_clean_spec (s : FS) :
    (ensureClean s).1.backup = none
    ∧ (∀ b, s.backup = some b → (ensureClean s).1.orig = some b)
    ∧ (s.backup = none → (ensureClean s).1 = s) := by
  obtain ⟨o, b⟩ := s
  cases b <;> simp [ensureClean]

/-- Witness for C6: recovery from a state whose backup holds `"ab"`. -/
theorem c6_witness :
    (ensureClean ⟨some "xb".toList, some "ab".toList⟩).1.orig
      = some "ab".toList :=
  (c6_ensure_clean_spec ⟨some "xb".toList, some "ab".toList⟩).2.1
    "ab".toList rfl

/-- Claim C7: if the copy of the original file to the backup fails
(injected fault, or the original file is missing), `apply` aborts with
`backupFailed` and the filesystem is untouched: no substitution is
performed and the original file's content is unchanged. -/
theorem c7_backup_failure_aborts (rule : Rule) (f : Faults) (s : FS)
    (h : f.backupFails = true ∨ s.orig = none) :
    apply rule f s = ⟨some PatchError.backupFailed, s⟩ := by
  obtain ⟨o, b⟩ := s
  rcases h with h | h
  · cases o <;> simp [apply, h]
  · simp only at h
    subst h
    simp [apply]

/-- Witness for C7: a backup-copy fault on `C = "ab"`. -/
theorem c7_witness :
    apply ⟨"a".toList, "x".toList⟩ ⟨true, false, false⟩
        ⟨some "ab".toList, none⟩
      = ⟨some PatchError.backupFailed, ⟨some "ab".toList, none⟩⟩ :=
  c7_backup_failure_aborts ⟨"a".toList, "x".toList⟩ ⟨true, false, false⟩
    ⟨some "ab".toList, none⟩ (Or.inl rfl)

/-- Claim C8: for every content containing the match text, `apply`
replaces all occurrences (Python `str.replace` semantics) and writes the
result to the original file; concretely, a header containing
`#define MOUSE_INTERVAL        2` contains the `...1` line after `apply`
with the script's rule, and after `restore` it contains the `...2` line
again with the backup file gone. -/
theorem c8_replace_all_and_scenario (m r C : List Char)
    (h : containsSub m C = true) :
    (apply ⟨m, r⟩ noFaults ⟨some C, none⟩).fs.orig = some (pyReplace m r C)
    ∧ containsSub original_mouse_interval sampleHeader = true
    ∧ containsSub modified_mouse_interval
        (((apply mouseRule noFaults ⟨some sampleHeader, none⟩).fs.orig).getD [])
      = true
    ∧ (restore_backup
          (apply mouseRule noFaults ⟨some sampleHeader, none⟩).fs).1
      = ⟨some sampleHeader, none⟩ :=
  ⟨by simp [apply, noFaults, h], by decide, by decide, by decide⟩

/-- Witness for C8 at `m = "a"`, `r = "x"`, `C = "ab"`. -/
theorem c8_witness :
    containsSub "a".toList "ab".toList = true ∧
    (apply ⟨"a".toList, "x".toList⟩ noFaults ⟨some "ab".toList, none⟩).fs.orig
      = some (pyReplace "a".toList "x".toList "ab".toList) :=
  ⟨by decide,
   (c8_replace_all_and_scenario "a".toList "x".toList "ab".toList (by decide)).1⟩

/-- Claim C9: calling `apply` twice in succession without an intervening
`restore`, when the content after the first call contains the replacement
text and no longer contains the match text, makes the second call a no-op
on the original file: its content is unchanged from after the first call. -/
theorem c9_second_apply_noop (rule : Rule) (C C1 : List Char)
    (h1 : (apply rule noFaults ⟨some C, none⟩).fs.orig = some C1)
    (h2 : containsSub rule.replacementText C1 = true)
    (h3 : containsSub rule.matchText C1 = false) :
    (apply rule noFaults (apply rule noFaults ⟨some C, none⟩).fs).fs.orig
      = some C1 :=
  apply_orig_of_not_contains rule _ C1 h1 h3

/-- Witness for C9 at `C = "ab"` with rule `("a", "x")`. -/
theorem c9_witness :
    (apply ⟨"a".toList, "x".toList⟩ noFaults
        (apply ⟨"a".toList, "x".toList⟩ noFaults ⟨some "ab".toList, none⟩).fs).fs.orig
      = some "xb".toList :=
  c9_second_apply_noop ⟨"a".toList, "x".toList⟩ "ab".toList "xb".toList
    (by decide) (by decide) (by decide)

/-- Claim C10: `ensureClean` (the crash-recovery prologue) and
`restore_backup` (the post-build cleanup hook) compute the same
filesystem transformation on every state, differing only in their
diagnostics. -/
theorem c10_ensure_clean_eq_restore (s : FS) :
    (ensureClean s).1 = (restore_backup s).1 := by
  obtain ⟨o, b⟩ := s
  cases b <;> rfl

end LDAT
